import Mathlib

/-!
Shallow embedding of organize_media.py (media_rescue repository).

Python values that flow through the metadata dictionaries are modelled by
the inductive PyVal (the script only ever stores JSON null, strings and
string lists in those dictionaries).  Python exceptions are modelled by
PyResult.  Machine-level services (the OpenAI classifier, the TMDb lookup,
the filesystem listing and the success or failure of each shutil.move) are
inputs to the embedded functions, mirroring section 6 of the spec.  The
csv module is modelled at the field level: the writer turns each value
into its field string (None becomes the empty string) and the reader
returns exactly the written field strings; quoting inside the csv codec is
treated as a correct external library.  pathlib operations (.name,
.suffix, .stem, path joining, str()) are modelled on character lists with
the documented pathlib semantics.
-/

/-- A Python value stored in a metadata dictionary: JSON null, a string, or
a list of strings (the subfolders field). -/
inductive PyVal where
  | vnone : PyVal
  | vstr (s : String) : PyVal
  | vlist (xs : List String) : PyVal
deriving DecidableEq

/-- The Python exceptions raised by the embedded code. -/
inductive PyError where
  | keyError (k : String) : PyError
  | valueError (msg : String) : PyError
  | typeError (msg : String) : PyError
deriving DecidableEq

/-- Result of running a pieces of Python code: a value, or a raised
exception propagating to the caller. -/
inductive PyResult (α : Type) where
  | ok (a : α) : PyResult α
  | raised (e : PyError) : PyResult α
deriving DecidableEq

/-- The single-quote character (ASCII 39), used by the Python repr of a
list of strings. -/
def squote : String := String.mk [Char.ofNat 39]

/-- Python repr of a list of strings, as produced by str on a list. -/
def pyListRepr (xs : List String) : String :=
  "[" ++ String.intercalate ", " (xs.map (fun s => squote ++ s ++ squote)) ++ "]"

/-- Python truthiness of the values we model: None is falsy, a string is
truthy iff nonempty, a list is truthy iff nonempty. -/
def truthy : PyVal → Bool
  | .vnone => false
  | .vstr s => decide (s ≠ "")
  | .vlist xs => decide (xs ≠ [])

/-- Python str() of a modelled value. -/
def pyStr : PyVal → String
  | .vnone => "None"
  | .vstr s => s
  | .vlist xs => pyListRepr xs

/-- Iterating a modelled Python value: a list yields its items, a string
yields its characters, None is never iterated on the reachable paths. -/
def pyItems : PyVal → List String
  | .vnone => []
  | .vstr s => s.data.map Char.toString
  | .vlist xs => xs

/-- The forbidden characters of sanitize_filename, in the order of the
regular expression character class (the double quote is ASCII 34). -/
def FORBIDDEN_CHARS : List Char :=
  ['<', '>', ':', Char.ofNat 34, '/', '\\', '|', '?', '*']

/-- re.sub of the forbidden character class with the empty replacement:
every occurrence of a forbidden character is removed. -/
def sanitizeStr (s : String) : String :=
  String.mk (s.data.filter (fun c => decide (c ∉ FORBIDDEN_CHARS)))

/-- sanitize_filename from the source: non-string input (None or a list)
returns the empty string, a string has the forbidden characters removed. -/
def sanitize_filename : PyVal → String
  | .vstr s => sanitizeStr s
  | _ => ""

/-- Python str.isdigit restricted to ASCII digits: nonempty and all digits. -/
def pyIsdigit (s : String) : Bool :=
  decide (s ≠ "") && s.data.all Char.isDigit

/-- Python int() on a digit string. -/
def digitsToNat (s : String) : Nat :=
  s.data.foldl (fun n c => n * 10 + (c.toNat - 48)) 0

/-- The Python format specifier 02d on a natural number. -/
def pad2 (n : Nat) : String :=
  if n < 10 then "0" ++ toString n else toString n

/-- Split a character list on a separator character. -/
def splitOnChar (sep : Char) : List Char → List (List Char)
  | [] => [[]]
  | c :: cs =>
    match splitOnChar sep cs with
    | [] => [[c]]
    | h :: t => if c = sep then [] :: h :: t else (c :: h) :: t

/-- The nonempty slash-separated segments of a path string (pathlib drops
empty segments produced by repeated or trailing slashes). -/
def pathSegs (p : String) : List String :=
  ((splitOnChar '/' p.data).filter (fun l => l ≠ [])).map (fun l => String.mk l)

/-- pathlib Path(p).name: the last segment of the path. -/
def pathName (p : String) : String :=
  ((pathSegs p).getLast?).getD ""

/-- Index of the last occurrence of the dot character in a name. -/
def lastDotIdx : List Char → Option Nat
  | [] => none
  | c :: rest =>
    match lastDotIdx rest with
    | some i => some (i + 1)
    | none => if c = '.' then some 0 else none

/-- pathlib Path(p).suffix: the extension of the last segment, empty when
the only dot is leading or trailing. -/
def pathSuffix (p : String) : String :=
  let n := (pathName p).data
  match lastDotIdx n with
  | some i => if 0 < i ∧ i < n.length - 1 then String.mk (n.drop i) else ""
  | none => ""

/-- pathlib Path(p).stem: the last segment with its suffix removed. -/
def pathStem (p : String) : String :=
  let n := (pathName p).data
  match lastDotIdx n with
  | some i => if 0 < i ∧ i < n.length - 1 then String.mk (n.take i) else String.mk n
  | none => String.mk n

/-- The SHARED_MEDIA_PATH constant of the source. -/
def SHARED_MEDIA_PATH : String := "/Volumes/HDD_RAID/Shared Media/"

/-- pathlib parts of the absolute shared-media root: the root marker
followed by the named segments. -/
def SHARED_MEDIA_PARTS : List String := "/" :: pathSegs SHARED_MEDIA_PATH

/-- Python str() of a Path given by its parts. -/
def renderParts : List String → String
  | [] => ""
  | "/" :: rest => "/" ++ String.intercalate "/" rest
  | ps => String.intercalate "/" ps

/-- A Python dictionary with string keys and modelled values. -/
abbrev PyDict := List (String × PyVal)

/-- Dictionary lookup; the first binding wins, so dictSet prepends. -/
def dictFind : PyDict → String → Option PyVal
  | [], _ => none
  | (k, v) :: rest, key => if k = key then some v else dictFind rest key

/-- Python dict.get with a default. -/
def dictGet (d : PyDict) (key : String) (default : PyVal) : PyVal :=
  (dictFind d key).getD default

/-- Python dictionary item assignment. -/
def dictSet (d : PyDict) (key : String) (v : PyVal) : PyDict :=
  (key, v) :: d

/-- The loop of dedupe_sequential: keep an item when it differs from the
last kept item. -/
def dedupeLoop (last : String) : List String → List String
  | [] => []
  | x :: xs => if x = last then dedupeLoop last xs else x :: dedupeLoop x xs

/-- dedupe_sequential from the source: a falsy argument yields the empty
list, otherwise the first item is kept and adjacent repeats collapse. -/
def dedupe_sequential (v : PyVal) : List String :=
  if truthy v then
    match pyItems v with
    | [] => []
    | x :: xs => x :: dedupeLoop x xs
  else []

/-- build_destination_path from the source.  The dry_run flag only gates
the mkdir side effect, which does not influence the returned path. -/
def build_destination_path (category subfolders title season : PyVal)
    (dry_run : Bool) : PyResult (List String) :=
  if category = PyVal.vnone then
    .raised (.valueError "Category cannot be None.")
  else
    let p1 := SHARED_MEDIA_PARTS ++ [sanitize_filename category]
      ++ (dedupe_sequential subfolders).map sanitizeStr
    let p2 :=
      if (category = PyVal.vstr "TV Shows" ∨ category = PyVal.vstr "Kids TV"
            ∨ category = PyVal.vstr "Anime") ∧ truthy title = true then
        let pa := if truthy subfolders = false then
            p1 ++ [sanitize_filename title] else p1
        if ¬ season = PyVal.vnone ∧ pyIsdigit (pyStr season) = true then
          pa ++ ["Season " ++ pad2 (digitsToNat (pyStr season))]
        else pa
      else p1
    let _ := dry_run
    .ok p2

/-- generate_new_filename from the source. -/
def generate_new_filename (file_path : String)
    (category title year season episode : PyVal) : String :=
  let file_ext := pathSuffix file_path
  if category = PyVal.vstr "Movies" ∨ category = PyVal.vstr "Kids Movies" then
    if truthy year = true then
      pyStr year ++ " - " ++ sanitize_filename title ++ file_ext
    else
      sanitize_filename title ++ file_ext
  else if category = PyVal.vstr "TV Shows" ∨ category = PyVal.vstr "Kids TV"
      ∨ category = PyVal.vstr "Anime" then
    let season_str :=
      if ¬ season = PyVal.vnone ∧ pyIsdigit (pyStr season) = true then
        "S" ++ pad2 (digitsToNat (pyStr season))
      else ""
    let episode_str :=
      if ¬ episode = PyVal.vnone ∧ pyIsdigit (pyStr episode) = true then
        "E" ++ pad2 (digitsToNat (pyStr episode))
      else ""
    if season_str ≠ "" ∧ episode_str ≠ "" then
      season_str ++ episode_str ++ " - " ++ sanitize_filename title ++ file_ext
    else if episode_str ≠ "" ∧ season_str = "" then
      episode_str ++ " - " ++ sanitize_filename title ++ file_ext
    else
      sanitize_filename title ++ file_ext
  else
    pathName file_path

/-- Outcome of move_file_and_sidecars: the items whose move was attempted
in order, the successful moves with their final locations, and the logged
error (the name of the failing item), if any.  The outer exception handler
of the source logs the error and never re-raises, so the outcome is total. -/
structure MoveOutcome where
  attempted : List String
  moved : List (String × List String)
  errorLogged : Option String
deriving DecidableEq

/-- The iterdir loop of move_file_and_sidecars: each directory item whose
stem equals the source stem is moved to parent slash its own name; the
whole loop sits inside one try block, so the first failing move raises,
ends the loop, and leaves later items unattempted.  fails tells which
individual shutil.move calls raise. -/
def moveLoop (stem : String) (parent : List String) (fails : String → Bool) :
    List String → MoveOutcome
  | [] => ⟨[], [], none⟩
  | it :: rest =>
    if pathStem it = stem then
      if fails it then ⟨[it], [], some it⟩
      else
        let r := moveLoop stem parent fails rest
        ⟨it :: r.attempted, (it, parent ++ [it]) :: r.moved, r.errorLogged⟩
    else moveLoop stem parent fails rest

/-- move_file_and_sidecars from the source, over the listing of the source
directory (items are file names, in iteration order). -/
def move_file_and_sidecars (src_file : String) (dest_file : List String)
    (items : List String) (fails : String → Bool) : MoveOutcome :=
  moveLoop (pathStem src_file) dest_file.dropLast fails items

/-- Result of rename_and_move_file: the returned pair is origPath together
with destFileParts (str of the destination file path); destDir is the
synthesized destination directory; move describes the filesystem effect. -/
structure RenameResult where
  origPath : String
  destFileParts : List String
  destDir : List String
  move : MoveOutcome
deriving DecidableEq

/-- rename_and_move_file from the source.  Missing category or title keys
raise KeyError; build_destination_path may raise ValueError; in non-dry
runs move_file_and_sidecars relocates every stem-sharing item. -/
def rename_and_move_file (file_path : String) (metadata : PyDict)
    (dry_run : Bool) (items : List String) (fails : String → Bool) :
    PyResult RenameResult :=
  match dictFind metadata "category" with
  | none => .raised (.keyError "category")
  | some category =>
    let subfolders := dictGet metadata "subfolders" (.vlist [])
    match dictFind metadata "title" with
    | none => .raised (.keyError "title")
    | some title =>
      let year := dictGet metadata "year" (.vstr "")
      let season := dictGet metadata "season" (.vstr "")
      let episode := dictGet metadata "episode" (.vstr "")
      match build_destination_path category subfolders title season dry_run with
      | .raised e => .raised e
      | .ok dest_path =>
        let new_filename :=
          generate_new_filename file_path category title year season episode
        let dest_file := dest_path ++ pathSegs new_filename
        let mv := if dry_run then (⟨[], [], none⟩ : MoveOutcome)
          else move_file_and_sidecars file_path dest_file items fails
        .ok ⟨file_path, dest_file, dest_path, mv⟩

/-- One row of the cache csv file as csv.DictReader yields it: every field
is a string. -/
structure CacheRow where
  original_path : String
  new_path : String
  category : String
  title : String
  show_name : String
  year : String
  season : String
  episode : String
deriving DecidableEq

/-- A cache entry as built by process_files before it is written: field
values are the Python values taken from the metadata dictionary. -/
structure CacheEntry where
  original_path : PyVal
  new_path : PyVal
  category : PyVal
  title : PyVal
  show_name : PyVal
  year : PyVal
  season : PyVal
  episode : PyVal
deriving DecidableEq

/-- The metadata dictionary a cache hit hands to the pipeline: exactly the
eight columns of the row, every value a string, and no subfolders key. -/
def rowToDict (r : CacheRow) : PyDict :=
  [("original_path", .vstr r.original_path), ("new_path", .vstr r.new_path),
   ("category", .vstr r.category), ("title", .vstr r.title),
   ("show_name", .vstr r.show_name), ("year", .vstr r.year),
   ("season", .vstr r.season), ("episode", .vstr r.episode)]

/-- The expected header of the cache csv file. -/
def expected_headers : List String :=
  ["original_path", "new_path", "category", "title", "show_name", "year",
   "season", "episode"]

/-- A parsed cache csv file: its header row and its well-formed data rows
(the rows written by write_cache_entry always carry the eight fields). -/
structure CsvFile where
  header : List String
  rows : List CacheRow
deriving DecidableEq

/-- What read_cache produces: the cache table keyed by original_path
(later rows shadow earlier ones) and whether the error path was taken. -/
structure ReadCacheResult where
  cache : List (String × CacheRow)
  errorLogged : Bool
deriving DecidableEq

/-- The body of the try block of read_cache: a header different from the
expected one raises ValueError before any row is read; otherwise the rows
are keyed by their original_path. -/
def read_cache_try (f : CsvFile) : PyResult (List (String × CacheRow)) :=
  if f.header ≠ expected_headers then
    .raised (.valueError "Unexpected headers in media_cache.csv")
  else
    .ok (f.rows.foldl (fun acc r => (r.original_path, r) :: acc) [])

/-- read_cache from the source: a missing file yields an empty cache; any
exception inside the try block, the header mismatch included, is caught by
the handler of read_cache itself, logged, and the function returns the
cache built so far, which is empty in the mismatch case.  No exception
ever propagates to the caller. -/
def read_cache (file : Option CsvFile) : ReadCacheResult :=
  match file with
  | none => ⟨[], false⟩
  | some f =>
    match read_cache_try f with
    | .ok c => ⟨c, false⟩
    | .raised _ => ⟨[], true⟩

/-- The csv field written for a value: csv.writer writes None as the empty
string, a string as itself, and any other object via str. -/
def csvField : PyVal → String
  | .vnone => ""
  | .vstr s => s
  | .vlist xs => pyListRepr xs

/-- The row write_cache_entry appends for an entry, in column order. -/
def writeRow (e : CacheEntry) : List String :=
  [csvField e.original_path, csvField e.new_path, csvField e.category,
   csvField e.title, csvField e.show_name, csvField e.year,
   csvField e.season, csvField e.episode]

/-- Reading back one data row of eight fields. -/
def readRow : List String → Option CacheRow
  | [a, b, c, d, e, f, g, h] => some ⟨a, b, c, d, e, f, g, h⟩
  | _ => none

/-- A reloaded row seen as an entry: csv.DictReader yields strings. -/
def entryOfRow (r : CacheRow) : CacheEntry :=
  ⟨.vstr r.original_path, .vstr r.new_path, .vstr r.category, .vstr r.title,
   .vstr r.show_name, .vstr r.year, .vstr r.season, .vstr r.episode⟩

/-- Appending an entry with write_cache_entry and reloading that row with
read_cache. -/
def cacheRoundTrip (e : CacheEntry) : Option CacheEntry :=
  (readRow (writeRow e)).map entryOfRow

/-- Python slicing with upper bound 4 on the value fetched from the TMDb
result: slicing a string or a list takes a prefix, slicing None raises
TypeError. -/
def pySliceFirst4 : PyVal → PyResult PyVal
  | .vnone => .raised (.typeError "NoneType is not subscriptable")
  | .vstr s => .ok (.vstr (String.mk (s.data.take 4)))
  | .vlist xs => .ok (.vlist (xs.take 4))

/-- update_metadata_with_tmdb from the source: the year becomes the first
four characters of the release date field (raising TypeError when that
field is null), and the title becomes the TMDb title, defaulting to the
existing title, whose lookup raises KeyError when the key is missing. -/
def update_metadata_with_tmdb (metadata tmdb_data : PyDict) (is_tv : Bool) :
    PyResult PyDict :=
  let date_key := if is_tv then "first_air_date" else "release_date"
  match pySliceFirst4 (dictGet tmdb_data date_key (.vstr "")) with
  | .raised e => .raised e
  | .ok yr =>
    let md1 := dictSet metadata "year" yr
    match dictFind md1 "title" with
    | none => .raised (.keyError "title")
    | some old =>
      .ok (dictSet md1 "title"
        (dictGet tmdb_data (if is_tv then "name" else "title") old))

/-- Terminal state of one file in process_files: skipped on classification
failure, cached after a successful route, or a logged ValueError from the
synthesis or move step. -/
inductive FileOutcome where
  | skipped : FileOutcome
  | cachedOk (entry : CacheEntry) : FileOutcome
  | moveErrorLogged : FileOutcome
deriving DecidableEq

/-- Result of processing one file: whether the TMDb adapter was queried,
and the outcome; raised means an exception escaped the per-file handling
and aborts the whole batch. -/
structure StepResult where
  tmdbQueried : Bool
  outcome : PyResult FileOutcome
deriving DecidableEq

/-- Lines 319 to 328 of the source: the cache entry built after a move. -/
def mkCacheEntry (orig : String) (destFileParts : List String)
    (md : PyDict) : CacheEntry :=
  { original_path := .vstr orig
    new_path := .vstr (renderParts destFileParts)
    category := dictGet md "category" (.vstr "")
    title := dictGet md "title" (.vstr "")
    show_name := dictGet md "show_name" (.vstr "")
    year := dictGet md "year" (.vstr "")
    season := dictGet md "season" (.vstr "")
    episode := dictGet md "episode" (.vstr "") }

/-- The classification and enrichment phase of one file of process_files:
a cache hit reuses the row verbatim; otherwise a failed classification
skips the file; otherwise is_tv is decided from the category item lookup,
and for non-is_tv files the title item lookup is evaluated as the call
argument and the TMDb adapter is queried (classifier and tmdb are the
external adapter answers). -/
def classifyPhase (cacheHit : Option CacheRow) (classifier : Option PyDict)
    (tmdb : Option PyDict) : Bool × PyResult (Option PyDict) :=
  match cacheHit with
  | some row => (false, .ok (some (rowToDict row)))
  | none =>
    match classifier with
    | none => (false, .ok none)
    | some md =>
      match dictFind md "category" with
      | none => (false, .raised (.keyError "category"))
      | some cat =>
        if cat = PyVal.vstr "TV Shows" ∨ cat = PyVal.vstr "Kids TV" then
          (false, .ok (some md))
        else
          match dictFind md "title" with
          | none => (false, .raised (.keyError "title"))
          | some _ =>
            match tmdb with
            | none => (true, .ok (some md))
            | some t =>
              match update_metadata_with_tmdb md t false with
              | .raised e => (true, .raised e)
              | .ok md2 => (true, .ok (some md2))

/-- One iteration of the loop of process_files.  Only ValueError from the
rename and move step is caught by the per-file try block; every other
exception escapes the loop and aborts the batch. -/
def process_one_file (file_path : String) (cacheHit : Option CacheRow)
    (classifier : Option PyDict) (tmdb : Option PyDict)
    (items : List String) (fails : String → Bool) (dry_run : Bool) :
    StepResult :=
  match classifyPhase cacheHit classifier tmdb with
  | (q, .raised e) => ⟨q, .raised e⟩
  | (q, .ok none) => ⟨q, .ok .skipped⟩
  | (q, .ok (some md)) =>
    match rename_and_move_file file_path md dry_run items fails with
    | .raised (.valueError _) => ⟨q, .ok .moveErrorLogged⟩
    | .raised e => ⟨q, .raised e⟩
    | .ok r => ⟨q, .ok (.cachedOk (mkCacheEntry file_path r.destFileParts md))⟩

/-! Spec-side formulations.  The following definitions transcribe the
wording of the verified claims, to be compared with the source-side
functions above. -/

/-- Injection of an optional string metadata field into a Python value. -/
def pyOfOpt : Option String → PyVal
  | none => .vnone
  | some s => .vstr s

/-- Sequential dedupe as the claim words it: adjacent duplicates collapse,
non-adjacent duplicates are preserved. -/
def specDedupe : List String → List String
  | [] => []
  | [a] => [a]
  | a :: b :: rest =>
    if a = b then specDedupe (b :: rest) else a :: specDedupe (b :: rest)

/-- The destination directory as claim C6 words it: root, sanitized
category, sanitized sequentially-deduplicated subfolders in order; for an
episodic category with a present (nonempty) title, the sanitized title is
appended only when the supplied subfolder list is empty, and then a Season
folder zero-padded to two digits when the season parses as an integer.  A
null category produces no path. -/
def spec_destination_dir (category : Option String) (subfolders : List String)
    (title season : Option String) : Option (List String) :=
  match category with
  | none => none
  | some c =>
    some (SHARED_MEDIA_PARTS ++ [sanitizeStr c]
      ++ (specDedupe subfolders).map sanitizeStr
      ++ (if (c = "TV Shows" ∨ c = "Kids TV" ∨ c = "Anime")
              ∧ (title.getD "") ≠ "" then
            (if subfolders = [] then [sanitizeStr ((title.getD ""))] else [])
            ++ (match season with
                | some s =>
                  if pyIsdigit s = true then
                    ["Season " ++ pad2 (digitsToNat s)]
                  else []
                | none => [])
          else []))

/-- The season or episode tag as claim C7 words it, built independently
when the value parses as an integer. -/
def spec_tag (letter : String) : Option String → Option String
  | none => none
  | some s => if pyIsdigit s = true then some (letter ++ pad2 (digitsToNat s))
              else none

/-- Removal of the forbidden characters as claim C9 words it: the input
with exactly the forbidden characters removed, every other character kept
in order. -/
def specRemoveForbidden : List Char → List Char
  | [] => []
  | c :: cs =>
    if c ∈ FORBIDDEN_CHARS then specRemoveForbidden cs
    else c :: specRemoveForbidden cs

/-- The destination directory of a rename result, when no exception was
raised. -/
def renameDestDir : PyResult RenameResult → Option (List String)
  | .ok r => some r.destDir
  | .raised _ => none

/-- Whether a modelled Python value is a string. -/
def pyIsStr : PyVal → Bool
  | .vstr _ => true
  | _ => false

/-- Every field of a cache entry is a string value. -/
def entryAllStrings (e : CacheEntry) : Bool :=
  pyIsStr e.original_path && pyIsStr e.new_path && pyIsStr e.category
    && pyIsStr e.title && pyIsStr e.show_name && pyIsStr e.year
    && pyIsStr e.season && pyIsStr e.episode

/-! Concrete inputs used by the counterexample and code-bug theorems. -/

/-- A classifier answer for a movie file, with the null fields the adapter
contract prescribes for unknown values. -/
def movieMd : PyDict :=
  [("category", .vstr "Movies"), ("subfolders", .vlist []),
   ("title", .vstr "Test Movie"), ("show_name", .vnone),
   ("year", .vstr "2020"), ("season", .vnone), ("episode", .vnone)]

/-- The orphaned source file of the concrete movie scenario. -/
def movieSrc : String := "/Volumes/HDD_RAID/Orphaned/Test.Movie.2020.mkv"

/-- The cache entry the pipeline produces for the concrete movie scenario
with no TMDb match. -/
def movieEntry : CacheEntry :=
  { original_path := .vstr movieSrc
    new_path :=
      .vstr "/Volumes/HDD_RAID/Shared Media/Movies/2020 - Test Movie.mkv"
    category := .vstr "Movies"
    title := .vstr "Test Movie"
    show_name := .vnone
    year := .vstr "2020"
    season := .vnone
    episode := .vnone }

/-! Helper lemmas (shared; none of them is a claim theorem). -/

/-- The filter of sanitizeStr computes the removal described by the spec. -/
theorem filter_eq_specRemoveForbidden (l : List Char) :
    l.filter (fun c => decide (c ∉ FORBIDDEN_CHARS)) = specRemoveForbidden l := by
  induction l with
  | nil => rfl
  | cons c cs ih =>
    by_cases hc : c ∈ FORBIDDEN_CHARS
    · rw [List.filter_cons, if_neg (by simp [hc])]
      simp only [specRemoveForbidden, if_pos hc]
      exact ih
    · rw [List.filter_cons, if_pos (by simp [hc])]
      simp only [specRemoveForbidden, if_neg hc]
      rw [ih]

/-- A string starting from a nonempty string is nonempty. -/
theorem append_left_ne_empty (a b : String) (h : 0 < a.length) : a ++ b ≠ "" := by
  intro hc
  have hl := congrArg String.length hc
  rw [String.length_append] at hl
  have h0 : ("" : String).length = 0 := rfl
  rw [h0] at hl
  omega

/-- The claim-side dedupe equals the loop of the source on a nonempty list. -/
theorem specDedupe_cons (x : String) (xs : List String) :
    specDedupe (x :: xs) = x :: dedupeLoop x xs := by
  induction xs generalizing x with
  | nil => rfl
  | cons y ys ih =>
    by_cases hxy : x = y
    · subst hxy
      simp [specDedupe, dedupeLoop, ih]
    · have hyx : ¬ y = x := fun h => hxy h.symm
      simp [specDedupe, dedupeLoop, hxy, hyx, ih]

/-- dedupe_sequential on a list value computes the claim-side dedupe. -/
theorem dedupe_sequential_vlist (subs : List String) :
    dedupe_sequential (.vlist subs) = specDedupe subs := by
  cases subs with
  | nil => rfl
  | cons x xs => simp [dedupe_sequential, truthy, pyItems, specDedupe_cons]

/-- A string field survives the csv field encoding. -/
theorem vstr_csvField {v : PyVal} (h : pyIsStr v = true) :
    PyVal.vstr (csvField v) = v := by
  cases v <;> simp [pyIsStr, csvField] at h ⊢

/-- The tmdbQueried flag of a processing step is decided entirely by the
classification and enrichment phase. -/
theorem process_tmdbQueried_eq (fp : String) (cacheHit : Option CacheRow)
    (classifier : Option PyDict) (tmdb : Option PyDict) (items : List String)
    (fails : String → Bool) (dry : Bool) :
    (process_one_file fp cacheHit classifier tmdb items fails dry).tmdbQueried
      = (classifyPhase cacheHit classifier tmdb).1 := by
  rcases hc : classifyPhase cacheHit classifier tmdb with ⟨q, r⟩
  cases r with
  | raised e => simp [process_one_file, hc]
  | ok o =>
    cases o with
    | none => simp [process_one_file, hc]
    | some md =>
      simp only [process_one_file, hc]
      split <;> rfl

/-! Claim theorems. -/

/-- C9: sanitize returns a string containing none of the forbidden
characters and otherwise equal to the input with exactly those characters
removed; null or non-string input yields the empty string; a string free
of forbidden characters is a fixed point. -/
theorem sanitize_removes_exactly_forbidden :
    (∀ (v : PyVal) (c : Char), c ∈ (sanitize_filename v).data →
      c ∉ FORBIDDEN_CHARS)
    ∧ (∀ s : String,
        (sanitize_filename (.vstr s)).data = specRemoveForbidden s.data)
    ∧ sanitize_filename .vnone = ""
    ∧ (∀ xs : List String, sanitize_filename (.vlist xs) = "")
    ∧ (∀ s : String, (∀ c ∈ s.data, c ∉ FORBIDDEN_CHARS) →
        sanitize_filename (.vstr s) = s) := by
  refine ⟨?_, ?_, rfl, fun xs => rfl, ?_⟩
  · intro v c hc
    cases v with
    | vnone => simp [sanitize_filename] at hc
    | vlist xs => simp [sanitize_filename] at hc
    | vstr s =>
      simp [sanitize_filename, sanitizeStr, List.mem_filter] at hc
      exact hc.2
  · intro s
    show s.data.filter (fun c => decide (c ∉ FORBIDDEN_CHARS))
      = specRemoveForbidden s.data
    exact filter_eq_specRemoveForbidden s.data
  · intro s hs
    obtain ⟨l⟩ := s
    simp only [sanitize_filename, sanitizeStr]
    congr 1
    exact List.filter_eq_self.mpr (fun c hcl => by simp [hs c hcl])

/-- Witness for C9: the fixed-point part applied to a concrete clean
string. -/
theorem sanitize_removes_exactly_forbidden_witness :
    sanitize_filename (.vstr "Test Movie") = "Test Movie" :=
  sanitize_removes_exactly_forbidden.2.2.2.2 "Test Movie" (by decide)

/-- C2 counterexample: a cache file whose header row is not the expected
eight-column schema does not terminate the run; read_cache catches the
ValueError it raised, logs it, and returns normally with an empty cache
table, so the loader does proceed with an empty cache. -/
theorem read_cache_mismatch_proceeds_with_empty_cache :
    read_cache (some ⟨["foo"], []⟩) = ⟨[], true⟩
    ∧ ["foo"] ≠ expected_headers := by
  exact ⟨by decide, by decide⟩

/-- C2 amended: a header mismatch raises a ValueError that the exception
handler of read_cache itself catches and logs; no row of the mismatched
file is ever interpreted and the function returns an empty cache, with
which the run proceeds. -/
theorem read_cache_mismatch_logged_and_empty :
    ∀ f : CsvFile, f.header ≠ expected_headers →
      read_cache (some f) = ⟨[], true⟩ := by
  intro f h
  simp [read_cache, read_cache_try, h]

/-- Witness for the amended C2 theorem at a concrete mismatched file. -/
theorem read_cache_mismatch_logged_and_empty_witness :
    read_cache (some ⟨["bar"], []⟩) = ⟨[], true⟩ :=
  read_cache_mismatch_logged_and_empty ⟨["bar"], []⟩ (by decide)

/-- C3 counterexample: with two sibling files sharing the stem, a failing
move of the first is logged, yet the second sibling is never attempted;
the failure of one move does prevent the remaining sibling moves. -/
theorem move_failure_skips_remaining_siblings :
    move_file_and_sidecars "/src/a.mkv" ["/", "dest", "a.mkv"]
        ["a.mkv", "a.srt"] (fun s => s == "a.mkv")
      = ⟨["a.mkv"], [], some "a.mkv"⟩
    ∧ "a.srt" ∉ (move_file_and_sidecars "/src/a.mkv" ["/", "dest", "a.mkv"]
        ["a.mkv", "a.srt"] (fun s => s == "a.mkv")).attempted := by
  exact ⟨by decide, by decide⟩



/-- The moveLoop of the Move Executor stops at the first failing matching
item: earlier matching items are moved, the failing one is the last
attempted, later ones are untouched. -/
theorem moveLoop_characterization (stem : String) (parent : List String)
    (fails : String → Bool) (items : List String) :
    moveLoop stem parent fails items =
      ⟨((items.filter (fun it => decide (pathStem it = stem))).takeWhile
          (fun it => !fails it))
        ++ (((items.filter (fun it => decide (pathStem it = stem))).dropWhile
          (fun it => !fails it)).head?).toList,
       ((items.filter (fun it => decide (pathStem it = stem))).takeWhile
          (fun it => !fails it)).map (fun it => (it, parent ++ [it])),
       ((items.filter (fun it => decide (pathStem it = stem))).dropWhile
          (fun it => !fails it)).head?⟩ := by
  induction items with
  | nil => rfl
  | cons it rest ih =>
    by_cases hstem : pathStem it = stem
    · by_cases hf : fails it = true
      · simp [moveLoop, hstem, hf, List.filter_cons, List.takeWhile,
          List.dropWhile]
      · simp only [moveLoop, if_pos hstem, hf, if_neg, Bool.not_eq_true]
        rw [ih]
        simp [List.filter_cons, hstem, List.takeWhile, List.dropWhile, hf]
    · simp [moveLoop, hstem, List.filter_cons, ih]

/-- C3 amended: an individual move failure is logged and does not
propagate to the caller of move_file_and_sidecars, but it ends the loop:
exactly the stem-matching items before the first failing one are moved,
the failing item is the last one attempted, and the remaining sibling
files, the primary included if it comes later in iteration order, are not
attempted. -/
theorem move_file_and_sidecars_first_failure_stops (src : String)
    (dest : List String) (items : List String) (fails : String → Bool) :
    (move_file_and_sidecars src dest items fails).moved
      = ((items.filter (fun it => decide (pathStem it = pathStem src))).takeWhile
          (fun it => !fails it)).map (fun it => (it, dest.dropLast ++ [it]))
    ∧ (move_file_and_sidecars src dest items fails).errorLogged
      = ((items.filter (fun it => decide (pathStem it = pathStem src))).dropWhile
          (fun it => !fails it)).head?
    ∧ (move_file_and_sidecars src dest items fails).attempted
      = ((items.filter (fun it => decide (pathStem it = pathStem src))).takeWhile
          (fun it => !fails it))
        ++ (((items.filter (fun it => decide (pathStem it = pathStem src))).dropWhile
          (fun it => !fails it)).head?).toList := by
  unfold move_file_and_sidecars
  rw [moveLoop_characterization]
  exact ⟨rfl, rfl, rfl⟩

/-- C1: evaluating rename_and_move_file at a concrete classified movie
record shows the divergence: the function returns the destination built
from generate_new_filename, but the move places the primary file in the
destination directory under its original basename, so after the move the
primary does not reside at the returned path. -/
theorem rename_moves_primary_under_original_name :
    rename_and_move_file movieSrc movieMd false
        ["Test.Movie.2020.mkv", "Test.Movie.2020.srt"] (fun _ => false)
      = .ok ⟨movieSrc,
          SHARED_MEDIA_PARTS ++ ["Movies", "2020 - Test Movie.mkv"],
          SHARED_MEDIA_PARTS ++ ["Movies"],
          ⟨["Test.Movie.2020.mkv", "Test.Movie.2020.srt"],
           [("Test.Movie.2020.mkv",
             SHARED_MEDIA_PARTS ++ ["Movies", "Test.Movie.2020.mkv"]),
            ("Test.Movie.2020.srt",
             SHARED_MEDIA_PARTS ++ ["Movies", "Test.Movie.2020.srt"])],
           none⟩⟩
    ∧ SHARED_MEDIA_PARTS ++ ["Movies", "Test.Movie.2020.mkv"]
        ≠ SHARED_MEDIA_PARTS ++ ["Movies", "2020 - Test Movie.mkv"] := by
  exact ⟨by decide, by decide⟩

/-- C8 counterexample: a record successfully routed through the pipeline
(one concrete movie file, classified with null season, episode and show
name as the adapter contract prescribes for unknown fields) does not
reload field-for-field equal: its null fields come back as empty strings. -/
theorem pipeline_record_roundtrip_unequal :
    process_one_file movieSrc none (some movieMd) none
        ["Test.Movie.2020.mkv"] (fun _ => false) false
      = ⟨true, .ok (.cachedOk movieEntry)⟩
    ∧ cacheRoundTrip movieEntry ≠ some movieEntry := by
  exact ⟨by decide, by decide⟩

/-- C8 amended: appending a cache entry and reloading that row yields
field-for-field equality exactly for entries all of whose eight fields are
strings; a None field is written as the empty string and reloads as an
empty string rather than None. -/
theorem cache_roundtrip_exact_for_string_fields :
    ∀ e : CacheEntry, entryAllStrings e = true → cacheRoundTrip e = some e := by
  intro e h
  obtain ⟨a, b, c, d, e1, f, g, k⟩ := e
  simp only [entryAllStrings, Bool.and_eq_true] at h
  obtain ⟨⟨⟨⟨⟨⟨⟨h1, h2⟩, h3⟩, h4⟩, h5⟩, h6⟩, h7⟩, h8⟩ := h
  simp [cacheRoundTrip, writeRow, readRow, entryOfRow, CacheEntry.mk.injEq,
    vstr_csvField h1, vstr_csvField h2, vstr_csvField h3, vstr_csvField h4,
    vstr_csvField h5, vstr_csvField h6, vstr_csvField h7, vstr_csvField h8]

/-- Witness for the amended C8 theorem at a concrete all-string entry. -/
theorem cache_roundtrip_exact_for_string_fields_witness :
    cacheRoundTrip ⟨.vstr "/o/x.mkv", .vstr "/n/x.mkv", .vstr "Movies",
        .vstr "X", .vstr "", .vstr "2020", .vstr "", .vstr ""⟩
      = some ⟨.vstr "/o/x.mkv", .vstr "/n/x.mkv", .vstr "Movies",
        .vstr "X", .vstr "", .vstr "2020", .vstr "", .vstr ""⟩ :=
  cache_roundtrip_exact_for_string_fields _ (by decide)

/-- C5 counterexample: a classification result that is a dict missing the
category key raises a KeyError that no handler of process_files catches;
the exception escapes and aborts the batch instead of being contained. -/
theorem missing_category_key_aborts_batch :
    process_one_file "/v/f.mkv" none (some [("title", .vstr "X")]) none []
        (fun _ => false) true
      = ⟨false, .raised (.keyError "category")⟩ := by
  decide

/-- C5 amended: per-file containment is partial.  A classification
failure (no parseable result) is skipped safely, and a ValueError from
path synthesis is caught per file, but a classification dict missing the
category key raises an uncaught KeyError that aborts the batch, an
enrichment result whose release-date field is null raises an uncaught
TypeError that aborts the batch, and a classification dict missing the
title key also raises an uncaught KeyError that aborts the batch, whatever
its category (for the TV categories the lookup that raises sits inside
rename_and_move_file, otherwise it is the enrichment call argument). -/
theorem per_file_error_containment_partial :
    (∀ (fp : String) (tmdb : Option PyDict) (items : List String)
        (fails : String → Bool) (dry : Bool),
      process_one_file fp none none tmdb items fails dry
        = ⟨false, .ok .skipped⟩)
    ∧ (∀ (fp : String) (md : PyDict) (tmdb : Option PyDict)
        (items : List String) (fails : String → Bool) (dry : Bool),
      dictFind md "category" = none →
      process_one_file fp none (some md) tmdb items fails dry
        = ⟨false, .raised (.keyError "category")⟩)
    ∧ (∀ (fp : String) (md : PyDict) (t : PyVal) (items : List String)
        (fails : String → Bool) (dry : Bool),
      dictFind md "category" = some PyVal.vnone →
      dictFind md "title" = some t →
      process_one_file fp none (some md) none items fails dry
        = ⟨true, .ok .moveErrorLogged⟩)
    ∧ (∀ (fp : String) (md : PyDict) (t : PyVal) (items : List String)
        (fails : String → Bool) (dry : Bool),
      dictFind md "category" = some (PyVal.vstr "Movies") →
      dictFind md "title" = some t →
      process_one_file fp none (some md)
          (some [("release_date", PyVal.vnone)]) items fails dry
        = ⟨true, .raised (.typeError "NoneType is not subscriptable")⟩)
    ∧ (∀ (fp : String) (md : PyDict) (c : PyVal) (tmdb : Option PyDict)
        (items : List String) (fails : String → Bool) (dry : Bool),
      dictFind md "category" = some c →
      dictFind md "title" = none →
      process_one_file fp none (some md) tmdb items fails dry
        = ⟨false, .raised (.keyError "title")⟩) := by
  refine ⟨fun fp tmdb items fails dry => rfl, ?_, ?_, ?_, ?_⟩
  · intro fp md tmdb items fails dry h
    simp [process_one_file, classifyPhase, h]
  · intro fp md t items fails dry hcat htitle
    simp [process_one_file, classifyPhase, rename_and_move_file,
      build_destination_path, hcat, htitle]
  · intro fp md t items fails dry hcat htitle
    simp [process_one_file, classifyPhase, update_metadata_with_tmdb,
      dictGet, dictFind, pySliceFirst4, hcat, htitle]
  · intro fp md c tmdb items fails dry hcat htitle
    by_cases h : c = PyVal.vstr "TV Shows" ∨ c = PyVal.vstr "Kids TV"
    · simp [process_one_file, classifyPhase, rename_and_move_file, hcat,
        htitle, h]
    · simp [process_one_file, classifyPhase, hcat, htitle, h]

/-- Witness for the amended C5 theorem: the missing-category part at a
concrete classification dict. -/
theorem per_file_error_containment_partial_witness :
    process_one_file "/v/g.mkv" none (some [("show_name", .vstr "Y")]) none
        [] (fun _ => false) false
      = ⟨false, .raised (.keyError "category")⟩ :=
  per_file_error_containment_partial.2.1 "/v/g.mkv"
    [("show_name", .vstr "Y")] none [] (fun _ => false) false (by decide)

/-- C4 counterexample: a freshly classified file of the episodic category
Anime does not skip enrichment; the TMDb adapter is queried for it. -/
theorem anime_queries_enrichment :
    (process_one_file "/v/Naruto.mkv" none
        (some [("category", .vstr "Anime"), ("title", .vstr "Naruto")])
        none [] (fun _ => false) true).tmdbQueried = true := by
  decide

/-- C4 amended: enrichment is skipped exactly for the categories TV Shows
and Kids TV; an Anime record with a title is enriched (queried against the
movie search) like any non-TV category. -/
theorem enrichment_skip_is_tv_or_kids_tv_only :
    (∀ (fp : String) (md : PyDict) (tmdb : Option PyDict)
        (items : List String) (fails : String → Bool) (dry : Bool)
        (c : PyVal),
      dictFind md "category" = some c →
      c = PyVal.vstr "TV Shows" ∨ c = PyVal.vstr "Kids TV" →
      (process_one_file fp none (some md) tmdb items fails dry).tmdbQueried
        = false)
    ∧ (∀ (fp : String) (md : PyDict) (tmdb : Option PyDict)
        (items : List String) (fails : String → Bool) (dry : Bool)
        (t : PyVal),
      dictFind md "category" = some (PyVal.vstr "Anime") →
      dictFind md "title" = some t →
      (process_one_file fp none (some md) tmdb items fails dry).tmdbQueried
        = true) := by
  constructor
  · intro fp md tmdb items fails dry c hfind hc
    rw [process_tmdbQueried_eq]
    rcases hc with rfl | rfl <;> simp [classifyPhase, hfind]
  · intro fp md tmdb items fails dry t hcat htitle
    rw [process_tmdbQueried_eq]
    simp only [classifyPhase, hcat, htitle]
    rw [if_neg (by decide)]
    cases tmdb with
    | none => rfl
    | some td =>
      cases h : update_metadata_with_tmdb md td false with
      | ok m => simp [h]
      | raised e => simp [h]

/-- Witness for the amended C4 theorem: the skip part at a concrete TV
Shows classification. -/
theorem enrichment_skip_is_tv_or_kids_tv_only_witness :
    (process_one_file "/v/s.mkv" none
        (some [("category", .vstr "TV Shows"), ("title", .vstr "S")])
        none [] (fun _ => false) true).tmdbQueried = false :=
  enrichment_skip_is_tv_or_kids_tv_only.1 "/v/s.mkv"
    [("category", .vstr "TV Shows"), ("title", .vstr "S")] none []
    (fun _ => false) true (.vstr "TV Shows") (by decide) (Or.inl rfl)

/-- C6: the synthesized destination directory follows the claimed rule:
root, sanitized category, sanitized sequentially-deduplicated subfolders
in order; for an episodic category with a present title, the sanitized
title is appended only when the supplied subfolder list is empty, then a
zero-padded Season folder when the season parses as an integer; a null
category raises and produces no path. -/
theorem build_destination_path_matches_spec :
    ∀ (category title season : Option String) (subs : List String)
      (dry : Bool),
      build_destination_path (pyOfOpt category) (.vlist subs)
          (pyOfOpt title) (pyOfOpt season) dry
        = (match spec_destination_dir category subs title season with
           | none => .raised (.valueError "Category cannot be None.")
           | some p => .ok p) := by
  intro category title season subs dry
  cases category with
  | none => rfl
  | some c =>
    cases title with
    | none =>
      simp [build_destination_path, spec_destination_dir, pyOfOpt, truthy,
        dedupe_sequential_vlist, sanitize_filename]
    | some t =>
      by_cases ht : t = ""
      · subst ht
        simp [build_destination_path, spec_destination_dir, pyOfOpt, truthy,
          dedupe_sequential_vlist, sanitize_filename]
      · by_cases hcat : c = "TV Shows" ∨ c = "Kids TV" ∨ c = "Anime"
        · by_cases hsubs : subs = []
          · subst hsubs
            cases season with
            | none =>
              simp [build_destination_path, spec_destination_dir, pyOfOpt,
                truthy, dedupe_sequential_vlist, sanitize_filename, hcat, ht]
            | some s =>
              by_cases hdig : pyIsdigit s = true
              · simp [build_destination_path, spec_destination_dir, pyOfOpt,
                  truthy, dedupe_sequential_vlist, sanitize_filename, hcat,
                  ht, hdig, pyStr, List.append_assoc]
              · simp [build_destination_path, spec_destination_dir, pyOfOpt,
                  truthy, dedupe_sequential_vlist, sanitize_filename, hcat,
                  ht, hdig, pyStr]
          · cases season with
            | none =>
              simp [build_destination_path, spec_destination_dir, pyOfOpt,
                truthy, dedupe_sequential_vlist, sanitize_filename, hcat, ht,
                hsubs]
            | some s =>
              by_cases hdig : pyIsdigit s = true
              · simp [build_destination_path, spec_destination_dir, pyOfOpt,
                  truthy, dedupe_sequential_vlist, sanitize_filename, hcat,
                  ht, hdig, hsubs, pyStr, List.append_assoc]
              · simp [build_destination_path, spec_destination_dir, pyOfOpt,
                  truthy, dedupe_sequential_vlist, sanitize_filename, hcat,
                  ht, hdig, hsubs, pyStr]
        · simp [build_destination_path, spec_destination_dir, pyOfOpt,
            truthy, dedupe_sequential_vlist, sanitize_filename, hcat, ht]

/-- C10: a record satisfied by a cache hit carries no subfolders (the
eight-column row has no subfolders key, so the dict.get default, an empty
list, is used), and the destination directory recomputed for it therefore
contains no subfolder segments: it is exactly root, sanitized category,
and, for an episodic category with a nonempty title, the sanitized title
followed by the Season folder when the season parses as an integer. -/
theorem cached_records_yield_no_subfolder_segments :
    ∀ (r : CacheRow) (fp : String) (items : List String)
      (fails : String → Bool) (dry : Bool),
      dictGet (rowToDict r) "subfolders" (.vlist []) = PyVal.vlist []
      ∧ renameDestDir (rename_and_move_file fp (rowToDict r) dry items fails)
          = some (SHARED_MEDIA_PARTS ++ [sanitizeStr r.category]
              ++ (if (r.category = "TV Shows" ∨ r.category = "Kids TV"
                      ∨ r.category = "Anime") ∧ r.title ≠ "" then
                    [sanitizeStr r.title]
                    ++ (if pyIsdigit r.season = true then
                          ["Season " ++ pad2 (digitsToNat r.season)]
                        else [])
                  else []))
      := by
  intro r fp items fails dry
  refine ⟨rfl, ?_⟩
  simp only [rename_and_move_file, rowToDict, dictFind, dictGet]
  simp [build_destination_path, dedupe_sequential, truthy, pyItems, pyStr,
    sanitize_filename, renameDestDir, List.append_assoc]
  split_ifs <;> simp

/-- The sanitize of an optional title equals the sanitize of the string
with empty default. -/
theorem sanitize_pyOfOpt (t : Option String) :
    sanitize_filename (pyOfOpt t) = sanitizeStr (t.getD "") := by
  cases t with
  | none => decide
  | some u => rfl

/-- Sanitizing the empty string yields the empty string. -/
theorem sanitizeStr_empty : sanitizeStr "" = "" := by
  decide

/-- C7: generate_new_filename follows the category branch rules: the
movie branch with and without a known year, the episodic branch with both
tags, with only the episode tag, and with neither, and the passthrough of
the original basename for any other category, the original suffix being
preserved in every renaming branch. -/
theorem generate_new_filename_branch_rules :
    (∀ (fp : String) (c : String) (title year season episode : Option String),
      c = "Movies" ∨ c = "Kids Movies" →
      generate_new_filename fp (.vstr c) (pyOfOpt title) (pyOfOpt year)
          (pyOfOpt season) (pyOfOpt episode)
        = (match year with
           | some y =>
             if y ≠ "" then
               y ++ " - " ++ sanitizeStr (title.getD "") ++ pathSuffix fp
             else sanitizeStr (title.getD "") ++ pathSuffix fp
           | none => sanitizeStr (title.getD "") ++ pathSuffix fp))
    ∧ (∀ (fp : String) (c : String)
        (title year season episode : Option String) (st et : String),
      c = "TV Shows" ∨ c = "Kids TV" ∨ c = "Anime" →
      spec_tag "S" season = some st → spec_tag "E" episode = some et →
      generate_new_filename fp (.vstr c) (pyOfOpt title) (pyOfOpt year)
          (pyOfOpt season) (pyOfOpt episode)
        = st ++ et ++ " - " ++ sanitizeStr (title.getD "") ++ pathSuffix fp)
    ∧ (∀ (fp : String) (c : String)
        (title year season episode : Option String) (et : String),
      c = "TV Shows" ∨ c = "Kids TV" ∨ c = "Anime" →
      spec_tag "S" season = none → spec_tag "E" episode = some et →
      generate_new_filename fp (.vstr c) (pyOfOpt title) (pyOfOpt year)
          (pyOfOpt season) (pyOfOpt episode)
        = et ++ " - " ++ sanitizeStr (title.getD "") ++ pathSuffix fp)
    ∧ (∀ (fp : String) (c : String)
        (title year season episode : Option String),
      c = "TV Shows" ∨ c = "Kids TV" ∨ c = "Anime" →
      spec_tag "S" season = none → spec_tag "E" episode = none →
      generate_new_filename fp (.vstr c) (pyOfOpt title) (pyOfOpt year)
          (pyOfOpt season) (pyOfOpt episode)
        = sanitizeStr (title.getD "") ++ pathSuffix fp)
    ∧ (∀ (fp : String) (c title year season episode : PyVal),
      c ∉ ([.vstr "Movies", .vstr "Kids Movies", .vstr "TV Shows",
            .vstr "Kids TV", .vstr "Anime"] : List PyVal) →
      generate_new_filename fp c title year season episode = pathName fp)
      := by
  refine ⟨?_, ?_, ?_, ?_, ?_⟩
  · intro fp c title year season episode hc
    have hcond : PyVal.vstr c = PyVal.vstr "Movies"
        ∨ PyVal.vstr c = PyVal.vstr "Kids Movies" := by
      rcases hc with rfl | rfl <;> simp
    unfold generate_new_filename
    rw [if_pos hcond, sanitize_pyOfOpt]
    cases year with
    | none => simp [pyOfOpt, truthy]
    | some y =>
      by_cases hy : y = ""
      · subst hy
        simp [pyOfOpt, truthy]
      · simp [pyOfOpt, truthy, pyStr, hy]
  · intro fp c title year season episode st et hc hst het
    cases season with
    | none => simp [spec_tag] at hst
    | some s =>
      cases episode with
      | none => simp [spec_tag] at het
      | some e =>
        by_cases hs : pyIsdigit s = true
        · by_cases he : pyIsdigit e = true
          · simp only [spec_tag, if_pos hs, Option.some.injEq] at hst
            simp only [spec_tag, if_pos he, Option.some.injEq] at het
            subst hst
            subst het
            have hS : ("S" ++ pad2 (digitsToNat s)) ≠ "" :=
              append_left_ne_empty "S" _ (by decide)
            have hE : ("E" ++ pad2 (digitsToNat e)) ≠ "" :=
              append_left_ne_empty "E" _ (by decide)
            rcases hc with rfl | rfl | rfl <;>
              simp [generate_new_filename, pyOfOpt, pyStr, hs, he, hS, hE,
                sanitize_pyOfOpt] <;>
              cases title <;> simp [sanitize_filename, sanitizeStr_empty]
          · simp [spec_tag, he] at het
        · simp [spec_tag, hs] at hst
  · intro fp c title year season episode et hc hst het
    cases episode with
    | none => simp [spec_tag] at het
    | some e =>
      by_cases he : pyIsdigit e = true
      · simp only [spec_tag, if_pos he, Option.some.injEq] at het
        subst het
        have hE : ("E" ++ pad2 (digitsToNat e)) ≠ "" :=
          append_left_ne_empty "E" _ (by decide)
        cases season with
        | none =>
          rcases hc with rfl | rfl | rfl <;>
            simp [generate_new_filename, pyOfOpt, pyStr, he, hE,
              sanitize_pyOfOpt] <;>
            cases title <;> simp [sanitize_filename, sanitizeStr_empty]
        | some s =>
          have hs : ¬ pyIsdigit s = true := by
            by_contra hcon
            simp [spec_tag, hcon] at hst
          rcases hc with rfl | rfl | rfl <;>
            simp [generate_new_filename, pyOfOpt, pyStr, he, hE, hs,
              sanitize_pyOfOpt] <;>
            cases title <;> simp [sanitize_filename, sanitizeStr_empty]
      · simp [spec_tag, he] at het
  · intro fp c title year season episode hc hst het
    cases season with
    | none =>
      cases episode with
      | none =>
        rcases hc with rfl | rfl | rfl <;>
          simp [generate_new_filename, pyOfOpt, pyStr, sanitize_pyOfOpt] <;>
          cases title <;> simp [sanitize_filename, sanitizeStr_empty]
      | some e =>
        have he : ¬ pyIsdigit e = true := by
          by_contra hcon
          simp [spec_tag, hcon] at het
        rcases hc with rfl | rfl | rfl <;>
          simp [generate_new_filename, pyOfOpt, pyStr, he, sanitize_pyOfOpt] <;>
          cases title <;> simp [sanitize_filename, sanitizeStr_empty]
    | some s =>
      have hs : ¬ pyIsdigit s = true := by
        by_contra hcon
        simp [spec_tag, hcon] at hst
      cases episode with
      | none =>
        rcases hc with rfl | rfl | rfl <;>
          simp [generate_new_filename, pyOfOpt, pyStr, hs, sanitize_pyOfOpt] <;>
          cases title <;> simp [sanitize_filename, sanitizeStr_empty]
      | some e =>
        have he : ¬ pyIsdigit e = true := by
          by_contra hcon
          simp [spec_tag, hcon] at het
        rcases hc with rfl | rfl | rfl <;>
          simp [generate_new_filename, pyOfOpt, pyStr, hs, he,
            sanitize_pyOfOpt] <;>
          cases title <;> simp [sanitize_filename, sanitizeStr_empty]
  · intro fp c title year season episode hc
    simp only [List.mem_cons, List.not_mem_nil, or_false, not_or] at hc
    obtain ⟨h1, h2, h3, h4, h5⟩ := hc
    unfold generate_new_filename
    rw [if_neg (by tauto), if_neg (by tauto)]

/-- Witness for C7: the movie branch at the concrete input of the unit
test of the source. -/
theorem generate_new_filename_branch_rules_witness :
    generate_new_filename "/path/to/Test.Movie.2020.mkv" (.vstr "Movies")
        (pyOfOpt (some "Test Movie")) (pyOfOpt (some "2020"))
        (pyOfOpt none) (pyOfOpt none)
      = "2020 - Test Movie.mkv" := by
  rw [generate_new_filename_branch_rules.1 "/path/to/Test.Movie.2020.mkv"
    "Movies" (some "Test Movie") (some "2020") none none (Or.inl rfl)]
  decide
